import Mathlib

/-!
# i3watch: runners, handlers, configuration loading and listeners

A shallow embedding of `main.go`.  Everything the program obtains from outside
(the file system, the YAML decoder callback, the i3 IPC stream) is a parameter.
Side effects are recorded as a list of `Effect`s in program order.
-/

namespace I3Watch

/-! ## Go-level basics -/

/-- Go `string`. -/
abbrev GoString := String

/-- A non-nil Go `error`, identified with its message; a nil error is `none`. -/
abbrev GoError := GoString

/-- The type `i3.EventType`, which the i3 package declares as a string type. -/
abbrev EventType := GoString

/-- The interface `i3.Event`: an opaque payload that the program only forwards. -/
abbrev Event := GoString

/-- Go `[]byte`. -/
abbrev Bytes := List Nat

/-- Result of evaluating Go code that may fault at run time. -/
inductive Outcome (α : Type) where
  | returned (a : α)
  | panicked (msg : GoString)
  deriving DecidableEq

/-- Sequencing of possibly faulting computations. -/
def Outcome.bind {α β : Type} (x : Outcome α) (f : α → Outcome β) : Outcome β :=
  match x with
  | .returned a => f a
  | .panicked m => .panicked m

/-- How a function activation ends: by returning to its caller, by `os.Exit`,
or by a run-time fault. -/
inductive Termination where
  | returns
  | processExit (code : Nat)
  | panics (msg : GoString)
  deriving DecidableEq

/-- The text the standard logger writes for a message: a newline is appended
unless the message already ends in one (`log.Output`). -/
def logOutput (s : GoString) : GoString :=
  if s.data.getLast? = some (Char.ofNat 10) then s else s ++ "\n"

/-- The verb `%s` applied to an `error` value; a nil value prints as `%!s(<nil>)`. -/
def fmtError (err : Option GoError) : GoString :=
  match err with
  | some e => e
  | none => "%!s(<nil>)"

/-! ## Runners -/

/-- The struct `CommandRunner`. -/
structure CommandRunner where
  Command : GoString
  deriving DecidableEq

/-- The struct `DirectoryRunner`. -/
structure DirectoryRunner where
  Path : GoString
  deriving DecidableEq

/-- A non-nil value of interface `Runner`: one of the two implementing types. -/
inductive Runner where
  | command (r : CommandRunner)
  | directory (r : DirectoryRunner)
  deriving DecidableEq

/-- The struct `Handler`; a nil `runner` field is `none`. -/
structure Handler where
  runner : Option Runner
  deriving DecidableEq

/-- A value of type `*Handler`; the nil pointer is `none`.  The decoder leaves such a
pointer nil for a null entry of a handler sequence. -/
abbrev HandlerPtr := Option Handler

/-- Observable actions, in program order. -/
inductive Effect where
  /-- One write of the standard logger (the text written). -/
  | logLine (line : GoString)
  /-- One write to standard output. -/
  | stdout (text : GoString)
  /-- The call `h.runner.Run(t, e)` made by `Handler.Run`. -/
  | runnerRun (r : Runner) (t : EventType) (e : Event)
  /-- The call `h.Run(t, events.Event())` made by `runListener`. -/
  | handlerRun (h : HandlerPtr) (t : EventType) (e : Event)
  /-- The statement `go runListener(t, handler)`. -/
  | goListener (t : EventType) (h : HandlerPtr)
  /-- The blocking receive `<-c` of `wait`, followed by its log line. -/
  | waitSignal
  deriving DecidableEq

/-- Go `func (r *CommandRunner) Run`. -/
def CommandRunner.Run (r : CommandRunner) (t : EventType) (_e : Event) :
    List Effect × Option GoError :=
  ([.logLine (logOutput (t ++ ": run command: " ++ r.Command ++ "\n"))], none)

/-- Go `func (r *CommandRunner) Check`. -/
def CommandRunner.Check (_r : CommandRunner) : Outcome (Option GoError) :=
  .returned none

/-- Go `func (r *CommandRunner) String`. -/
def CommandRunner.String (r : CommandRunner) : GoString :=
  "CommandRunner \"" ++ r.Command ++ "\""

/-- Go `func (r *DirectoryRunner) Run`. -/
def DirectoryRunner.Run (r : DirectoryRunner) (t : EventType) (_e : Event) :
    List Effect × Option GoError :=
  ([.logLine (logOutput (t ++ ": run scripts in: " ++ r.Path ++ "\n"))], none)

/-- What the program uses of an `os.FileInfo`. -/
structure FileInfo where
  isDir : Bool
  deriving DecidableEq

/-- The two results of `os.Stat`: a possibly nil `FileInfo` and a possibly nil error. -/
abbrev StatResult := Option FileInfo × Option GoError

/-- The method call `s.IsDir()` on an interface value `s`; it faults when `s` is nil. -/
def IsDir (s : Option FileInfo) : Outcome Bool :=
  match s with
  | some fi => .returned fi.isDir
  | none => .panicked "runtime error: invalid memory address or nil pointer dereference"

/-- Go `func (r *DirectoryRunner) Check`, over the file system's `os.Stat`.
The first condition is `err == nil && s.IsDir()` (short-circuit), the second
`!s.IsDir()`, the last branch returns `err`. -/
def DirectoryRunner.Check (stat : GoString → StatResult) (r : DirectoryRunner) :
    Outcome (Option GoError) :=
  let s := (stat r.Path).1
  let err := (stat r.Path).2
  (if err = none then IsDir s else .returned false).bind fun c1 =>
    if c1 then .returned none
    else (IsDir s).bind fun d =>
      if !d then .returned (some ("not a directory: " ++ r.Path))
      else .returned err

/-- Go `func (r *DirectoryRunner) String`. -/
def DirectoryRunner.String (r : DirectoryRunner) : GoString :=
  "DirectoryRunner \"" ++ r.Path ++ "\""

/-- Dynamic dispatch of `Run` on a `Runner` value. -/
def Runner.Run (r : Runner) (t : EventType) (e : Event) : List Effect × Option GoError :=
  match r with
  | .command c => c.Run t e
  | .directory d => d.Run t e

/-- Dynamic dispatch of `Check` on a `Runner` value. -/
def Runner.Check (stat : GoString → StatResult) (r : Runner) : Outcome (Option GoError) :=
  match r with
  | .command c => c.Check
  | .directory d => d.Check stat

/-- Dynamic dispatch of `String` on a `Runner` value. -/
def Runner.String (r : Runner) : GoString :=
  match r with
  | .command c => c.String
  | .directory d => d.String

/-! ## Handler -/

/-- Go `func (h *Handler) IsZero`. -/
def Handler.IsZero (h : Handler) : Bool :=
  h.runner.isNone

/-- Go `func (h *Handler) Run`. -/
def Handler.Run (h : Handler) (t : EventType) (e : Event) : List Effect × Option GoError :=
  match h.runner with
  | some r => (Effect.runnerRun r t e :: (r.Run t e).1, (r.Run t e).2)
  | none => ([], none)

/-- Go `func (h *Handler) Check`. -/
def Handler.Check (stat : GoString → StatResult) (h : Handler) : Outcome (Option GoError) :=
  match h.runner with
  | some r => r.Check stat
  | none => .returned none

/-- Go `func (h *Handler) String`. -/
def Handler.String (h : Handler) : GoString :=
  match h.runner with
  | some r => r.String
  | none => "Runner"

/-- The call `h.Run(t, e)` on a pointer `h`.  The methods have pointer receivers, so
the call is entered on a nil pointer too; it then faults at the field access
`h.runner` in `IsZero`. -/
def HandlerPtr.Run (h : HandlerPtr) (t : EventType) (e : Event) :
    Outcome (List Effect × Option GoError) :=
  match h with
  | some v => .returned (v.Run t e)
  | none => .panicked "runtime error: invalid memory address or nil pointer dereference"

/-- The verb `%v` applied to a `*Handler`: the result of its `String` method, and
`<nil>` for a nil pointer. -/
def fmtHandler (h : HandlerPtr) : GoString :=
  match h with
  | some v => v.String
  | none => "<nil>"

/-- The callback `um func(interface{}) error` handed to `UnmarshalYAML`, given by
what it does for each of the three targets the method passes to it. -/
structure Unmarshaler where
  /-- The call `um(&m)`: on success the keys of `m`, in the order `range m` visits them. -/
  intoMap : Except GoError (List GoString)
  /-- The call `um(&r)` with `r` a `CommandRunner`. -/
  intoCommandRunner : Except GoError CommandRunner
  /-- The call `um(&r)` with `r` a `DirectoryRunner`. -/
  intoDirectoryRunner : Except GoError DirectoryRunner

/-- One iteration of the `for key := range m` loop of `UnmarshalYAML`, on the
pair of `h` and the named result `err`.  The `break` statements leave the
`switch` only, so the iteration always ends normally. -/
def UnmarshalYAML.visit (um : Unmarshaler) (st : Handler × Option GoError) (key : GoString) :
    Handler × Option GoError :=
  if key = "cmd" then
    match um.intoCommandRunner with
    | .ok r => (Handler.mk (some (.command r)), none)
    | .error e => (st.1, some e)
  else if key = "dir" then
    match um.intoDirectoryRunner with
    | .ok r => (Handler.mk (some (.directory r)), none)
    | .error e => (st.1, some e)
  else st

/-- The whole `for key := range m` loop. -/
def UnmarshalYAML.loop (um : Unmarshaler) :
    List GoString → Handler × Option GoError → Handler × Option GoError
  | [], st => st
  | key :: keys, st => UnmarshalYAML.loop um keys (UnmarshalYAML.visit um st key)

/-- Go `func (h *Handler) UnmarshalYAML`: the handler after the call and the returned error. -/
def Handler.UnmarshalYAML (stat : GoString → StatResult) (h : Handler) (um : Unmarshaler) :
    Outcome (Handler × Option GoError) :=
  match um.intoMap with
  | .error e => .returned (h, some e)
  | .ok keys =>
    let st := UnmarshalYAML.loop um keys (h, none)
    if st.2 ≠ none then
      (Handler.Check stat st.1).bind fun err => .returned (st.1, err)
    else .returned st

/-! ## Configuration and start-up -/

/-- The struct `ConfigData`; the map is given by its entries in the order a
`range` over it visits them. -/
structure ConfigData where
  Events : List (EventType × List HandlerPtr)
  deriving DecidableEq

/-- The struct `Config`. -/
structure Config where
  Path : GoString
  Data : ConfigData
  deriving DecidableEq

/-- Go `func (c *Config) String`. -/
def Config.String (c : Config) : GoString :=
  "<Config " ++ c.Path ++ ">"

/-- Go `func readConfig`, over `yaml.Unmarshal` into a `ConfigData`. -/
def readConfig (yamlUnmarshal : Bytes → Except GoError ConfigData) (data : Bytes) :
    Option ConfigData × Option GoError :=
  match yamlUnmarshal data with
  | .error err => (none, some err)
  | .ok config => (some config, none)

/-- Go `func readFirst`, over `ioutil.ReadFile`. -/
def readFirst (readFile : GoString → Except GoError Bytes) :
    List GoString → Bytes × GoString × Option GoError
  | [] => ([], "", none)
  | file :: files =>
    match readFile file with
    | .ok data => (data, file, none)
    | .error _ => readFirst readFile files

/-- Go `func wait`. -/
def wait : List Effect := [.waitSignal]

/-- The inner loop of `subscribe` over one event type's handlers. -/
def subscribe.handlersLoop (t : EventType) : List HandlerPtr → List Effect
  | [] => []
  | handler :: handlers =>
    .logLine (logOutput ("  " ++ fmtHandler handler)) :: .goListener t handler ::
      subscribe.handlersLoop t handlers

/-- The outer loop of `subscribe` over the entries of `conf.Data.Events`. -/
def subscribe.eventsLoop : List (EventType × List HandlerPtr) → List Effect
  | [] => []
  | (t, handlers) :: rest =>
    .logLine (logOutput ("handlers: " ++ t)) ::
      (subscribe.handlersLoop t handlers ++ subscribe.eventsLoop rest)

/-- Go `func subscribe`. -/
def subscribe (conf : Config) : List Effect :=
  subscribe.eventsLoop conf.Data.Events ++ [.logLine (logOutput "---")] ++ wait

/-- The result of `i3.Subscribe(t)`, for a stream that ends: the events that
`Event()` yields while `Next()` is true, and the result of `Close()`. -/
structure EventReceiver where
  events : List Event
  closeErr : Option GoError
  deriving DecidableEq

/-- The loop `for events.Next() ...` of `runListener`: its trace, and the fault that
ended it if a call of `h.Run` faulted. -/
def runListener.loop (t : EventType) (h : HandlerPtr) :
    List Event → List Effect × Option GoString
  | [] => ([], none)
  | e :: es =>
    match HandlerPtr.Run h t e with
    | .panicked msg => ([.handlerRun h t e], some msg)
    | .returned r =>
      (.handlerRun h t e :: (r.1 ++ (runListener.loop t h es).1), (runListener.loop t h es).2)

/-- Go `func runListener`, over `i3.Subscribe`; `log.Fatalf` writes and exits with 1. -/
def runListener (i3Subscribe : EventType → EventReceiver) (t : EventType) (h : HandlerPtr) :
    List Effect × Termination :=
  let events := i3Subscribe t
  match runListener.loop t h events.events with
  | (fx, some msg) => (fx, .panics msg)
  | (fx, none) =>
    (fx ++ [.logLine (logOutput ("i3 error: " ++ fmtError events.closeErr))], .processExit 1)

/-- What `main` obtains from outside the program. -/
structure Env where
  /-- The call `i3.GetVersion()`: the `HumanReadable` field on success. -/
  getVersion : Except GoError GoString
  /-- The call `xdg.ConfigFile`. -/
  xdgConfigFile : GoString → Except GoError GoString
  /-- The call `ioutil.ReadFile`. -/
  readFile : GoString → Except GoError Bytes
  /-- The call `yaml.Unmarshal(data, &config)`. -/
  yamlUnmarshal : Bytes → Except GoError ConfigData

/-- Go `func main`; `log.Fatal` writes and exits with 1.  The dereference `*cfg`
faults on a nil pointer. -/
def main (env : Env) : List Effect × Termination :=
  match env.getVersion with
  | .error err => ([.logLine (logOutput err)], .processExit 1)
  | .ok ver =>
    let printed : List Effect := [.stdout ("i3: " ++ ver ++ "\n")]
    let configFiles : List GoString := ["i3watch.yml", "i3watch.yaml"]
    let configFiles :=
      match env.xdgConfigFile "i3watch/config.yml" with
      | .ok homeConfig => configFiles ++ [homeConfig]
      | .error _ => configFiles
    match readFirst env.readFile configFiles with
    | (_, _, some err) => (printed ++ [.logLine (logOutput err)], .processExit 1)
    | (data, path, none) =>
      match readConfig env.yamlUnmarshal data with
      | (_, some err) => (printed ++ [.logLine (logOutput err)], .processExit 1)
      | (none, none) =>
        (printed, .panics "runtime error: invalid memory address or nil pointer dereference")
      | (some cfg, none) => (printed ++ subscribe (Config.mk path cfg), .returns)

/-! ## Reading a trace -/

/-- The listeners started in a trace, in order: one per `go runListener(t, h)`. -/
def listeners : List Effect → List (EventType × HandlerPtr)
  | [] => []
  | .goListener t h :: fx => (t, h) :: listeners fx
  | _ :: fx => listeners fx

/-- The calls of `Handler.Run` in a trace, in order. -/
def handlerCalls : List Effect → List (HandlerPtr × EventType × Event)
  | [] => []
  | .handlerRun h t e :: fx => (h, t, e) :: handlerCalls fx
  | _ :: fx => handlerCalls fx

/-- The calls of a runner's `Run` in a trace, in order. -/
def runnerCalls : List Effect → List (Runner × EventType × Event)
  | [] => []
  | .runnerRun r t e :: fx => (r, t, e) :: runnerCalls fx
  | _ :: fx => runnerCalls fx

/-- The log records written in a trace, in order. -/
def logRecords : List Effect → List GoString
  | [] => []
  | .logLine s :: fx => s :: logRecords fx
  | _ :: fx => logRecords fx

/-! ## Example inputs -/

/-- A file system with a directory `/tmp`, a regular file `/etc/passwd`, and nothing else. -/
def exampleStat (p : GoString) : StatResult :=
  if p = "/tmp" then (some (FileInfo.mk true), none)
  else if p = "/etc/passwd" then (some (FileInfo.mk false), none)
  else (none, some ("stat " ++ p ++ ": no such file or directory"))

/-- A freshly allocated `Handler`, as the YAML decoder creates one for each fragment. -/
def newHandler : Handler := Handler.mk none

/-- The callback for the fragment `cmd: notify-send hi, dir: /tmp` whose keys are
visited in the order `cmd`, `dir`. -/
def umCmdThenDir : Unmarshaler :=
  Unmarshaler.mk (.ok ["cmd", "dir"]) (.ok (CommandRunner.mk "notify-send hi"))
    (.ok (DirectoryRunner.mk "/tmp"))

/-- The callback for the same fragment whose keys are visited in the order `dir`, `cmd`. -/
def umDirThenCmd : Unmarshaler :=
  Unmarshaler.mk (.ok ["dir", "cmd"]) (.ok (CommandRunner.mk "notify-send hi"))
    (.ok (DirectoryRunner.mk "/tmp"))

/-- The callback for a fragment with the single key `dir` and scalar value `path`. -/
def umDir (path : GoString) : Unmarshaler :=
  Unmarshaler.mk (.ok ["dir"]) (.ok (CommandRunner.mk "")) (.ok (DirectoryRunner.mk path))

/-- The callback for a fragment with the single key `cmd` and scalar value `c`. -/
def umCmd (c : GoString) : Unmarshaler :=
  Unmarshaler.mk (.ok ["cmd"]) (.ok (CommandRunner.mk c)) (.ok (DirectoryRunner.mk ""))

/-- The callback for the fragment `cmd: [a, b]`: the value of `cmd` is a sequence,
which does not decode into the string field of a `CommandRunner`. -/
def umCmdSeq : Unmarshaler :=
  Unmarshaler.mk (.ok ["cmd"]) (.error "cannot unmarshal !!seq into string")
    (.ok (DirectoryRunner.mk ""))

/-- The callback for the fragment `cmd: [a, b], dir: /tmp`, keys visited in the
order `cmd`, `dir`. -/
def umCmdSeqThenDir : Unmarshaler :=
  Unmarshaler.mk (.ok ["cmd", "dir"]) (.error "cannot unmarshal !!seq into string")
    (.ok (DirectoryRunner.mk "/tmp"))

/-- The callback for the fragment `note: x, level: 3`, which has no recognized key. -/
def umOther : Unmarshaler :=
  Unmarshaler.mk (.ok ["note", "level"]) (.ok (CommandRunner.mk "")) (.ok (DirectoryRunner.mk ""))

/-- Handler `A`. -/
def handlerA : Handler := Handler.mk (some (.command (CommandRunner.mk "a")))

/-- Handler `B`. -/
def handlerB : Handler := Handler.mk (some (.command (CommandRunner.mk "b")))

/-- Handler `C`. -/
def handlerC : Handler := Handler.mk (some (.command (CommandRunner.mk "c")))

/-- A configuration binding `[A, B, C]` to the event type `window`. -/
def confABC : Config :=
  Config.mk "i3watch.yml"
    (ConfigData.mk [("window", [some handlerA, some handlerB, some handlerC])])

/-- An environment in which i3 answers, no candidate configuration file can be
read, and the YAML decoder accepts the empty input as an empty configuration. -/
def envNoConfigFile : Env :=
  Env.mk (.ok "4.20") (fun rel => .ok ("/home/u/.config/" ++ rel))
    (fun file => .error ("open " ++ file ++ ": no such file or directory"))
    (fun data => if data = [] then .ok (ConfigData.mk []) else .error "yaml: invalid")

/-! ## Lemmas -/

theorem logOutput_newline (s : GoString) : logOutput (s ++ "\n") = s ++ "\n" := by
  simp [logOutput, String.data_append]

theorem loop_unrecognized (um : Unmarshaler) (keys : List GoString)
    (st : Handler × Option GoError) (hc : "cmd" ∉ keys) (hd : "dir" ∉ keys) :
    UnmarshalYAML.loop um keys st = st := by
  induction keys generalizing st with
  | nil => rfl
  | cons k ks ih =>
    simp only [List.mem_cons, not_or] at hc hd
    have h1 : ¬ k = "cmd" := fun h => hc.1 h.symm
    have h2 : ¬ k = "dir" := fun h => hd.1 h.symm
    simp [UnmarshalYAML.loop, UnmarshalYAML.visit, h1, h2, ih st hc.2 hd.2]

theorem loop_cmd_only (um : Unmarshaler) (r : CommandRunner) (keys : List GoString)
    (st : Handler × Option GoError) (hr : um.intoCommandRunner = .ok r)
    (hk : "cmd" ∈ keys) (hd : "dir" ∉ keys) :
    UnmarshalYAML.loop um keys st = (Handler.mk (some (.command r)), none) := by
  induction keys generalizing st with
  | nil => simp at hk
  | cons k ks ih =>
    simp only [List.mem_cons, not_or] at hd
    have h2 : ¬ k = "dir" := fun h => hd.1 h.symm
    by_cases hks : "cmd" ∈ ks
    · simp only [UnmarshalYAML.loop]
      exact ih _ hks hd.2
    · have hk1 : k = "cmd" := by
        rcases List.mem_cons.mp hk with h | h
        · exact h.symm
        · exact absurd h hks
      simp only [UnmarshalYAML.loop, UnmarshalYAML.visit, hk1, hr, if_true]
      exact loop_unrecognized um ks _ hks hd.2

theorem handlerCalls_append (a b : List Effect) :
    handlerCalls (a ++ b) = handlerCalls a ++ handlerCalls b := by
  induction a with
  | nil => rfl
  | cons x xs ih => cases x <;> simp [handlerCalls, ih]

theorem listeners_append (a b : List Effect) :
    listeners (a ++ b) = listeners a ++ listeners b := by
  induction a with
  | nil => rfl
  | cons x xs ih => cases x <;> simp [listeners, ih]

theorem handlerCalls_run (h : Handler) (t : EventType) (e : Event) :
    handlerCalls (h.Run t e).1 = [] := by
  rcases h with ⟨_ | r⟩
  · rfl
  · cases r <;> rfl

theorem listeners_handlersLoop (t : EventType) (hs : List HandlerPtr) :
    listeners (subscribe.handlersLoop t hs) = hs.map (fun h => (t, h)) := by
  induction hs with
  | nil => rfl
  | cons h hs ih => simp [subscribe.handlersLoop, listeners, ih]

theorem listeners_eventsLoop (evs : List (EventType × List HandlerPtr)) :
    listeners (subscribe.eventsLoop evs) = evs.flatMap (fun p => p.2.map (fun h => (p.1, h))) := by
  induction evs with
  | nil => rfl
  | cons p ps ih =>
    obtain ⟨t, hs⟩ := p
    simp [subscribe.eventsLoop, listeners, listeners_append, listeners_handlersLoop, ih]

theorem check_faults_of_nil_fileInfo (stat : GoString → StatResult) (r : DirectoryRunner)
    (err : Option GoError) (hs : stat r.Path = (none, err)) :
    r.Check stat = .panicked "runtime error: invalid memory address or nil pointer dereference" := by
  cases err <;> simp [DirectoryRunner.Check, hs, IsDir, Outcome.bind]

/-! ## The claims -/

/-- C1 (the code departs from it): a fragment with both `cmd` and `dir`, both of which
decode, yields a `DirectoryRunner` when `range` visits `cmd` before `dir`, and a
`CommandRunner` only when it visits `dir` before `cmd`. -/
theorem unmarshalYAML_both_keys_last_visited_wins :
    Handler.UnmarshalYAML exampleStat newHandler umCmdThenDir
        = .returned (Handler.mk (some (.directory (DirectoryRunner.mk "/tmp"))), none) ∧
    Handler.UnmarshalYAML exampleStat newHandler umDirThenCmd
        = .returned (Handler.mk (some (.command (CommandRunner.mk "notify-send hi"))), none) := by
  constructor <;> rfl

/-- C2 (the code departs from it): for the fragment `dir: /etc/passwd`, the runner
decodes, its `Check` returns the error `not a directory: /etc/passwd`, and yet
`UnmarshalYAML` returns a nil error and keeps the runner; likewise for
`dir: /no/such/path`. -/
theorem unmarshalYAML_skips_check_after_successful_decode :
    Handler.Check exampleStat (Handler.mk (some (.directory (DirectoryRunner.mk "/etc/passwd"))))
        = .returned (some "not a directory: /etc/passwd") ∧
    Handler.UnmarshalYAML exampleStat newHandler (umDir "/etc/passwd")
        = .returned (Handler.mk (some (.directory (DirectoryRunner.mk "/etc/passwd"))), none) ∧
    Handler.UnmarshalYAML exampleStat newHandler (umDir "/no/such/path")
        = .returned (Handler.mk (some (.directory (DirectoryRunner.mk "/no/such/path"))), none) := by
  refine ⟨?_, ?_, ?_⟩ <;> decide

/-- C3 (the code departs from it): when `os.Stat` fails for `/no/such/path`, returning
a nil `FileInfo` and an error, `DirectoryRunner.Check` faults on `s.IsDir()` instead of
returning that error. -/
theorem directoryRunner_check_faults_when_stat_fails :
    exampleStat "/no/such/path"
        = (none, some "stat /no/such/path: no such file or directory") ∧
    DirectoryRunner.Check exampleStat (DirectoryRunner.mk "/no/such/path")
        = .panicked "runtime error: invalid memory address or nil pointer dereference" := by
  constructor <;> decide

/-- C4 as stated fails: for `[A, B, C]` bound to `window`, `subscribe` starts three
listeners, not one for the one event type with handlers, and on one event the first of
them calls only `A.Run`. -/
theorem subscribe_not_one_listener_per_event_type :
    listeners (subscribe confABC)
        = [("window", some handlerA), ("window", some handlerB), ("window", some handlerC)] ∧
    (listeners (subscribe confABC)).length
        ≠ (confABC.Data.Events.filter (fun p => !p.2.isEmpty)).length ∧
    handlerCalls (runListener (fun _ => EventReceiver.mk ["e"] none) "window" (some handlerA)).1
        = [(some handlerA, "window", "e")] ∧
    handlerCalls (runListener (fun _ => EventReceiver.mk ["e"] none) "window" (some handlerA)).1
        ≠ [(some handlerA, "window", "e"), (some handlerB, "window", "e"),
            (some handlerC, "window", "e")] := by
  refine ⟨?_, ?_, ?_, ?_⟩ <;> decide

/-- C4, amended: `subscribe` starts exactly one listener per handler of each event
type, in the order the event types are visited and in sequence order within an event
type, each bound to that event type and that one handler (so an event type with an
empty sequence gets none); on a single received event a listener calls `Run` of its own
handler once and of no other handler. -/
theorem subscribe_one_listener_per_handler (conf : Config) :
    listeners (subscribe conf)
        = conf.Data.Events.flatMap (fun p => p.2.map (fun h => (p.1, h))) ∧
    (listeners (subscribe conf)).length = (conf.Data.Events.map (fun p => p.2.length)).sum ∧
    ∀ (t : EventType) (h : HandlerPtr) (e : Event) (ce : Option GoError),
      handlerCalls (runListener (fun _ => EventReceiver.mk [e] ce) t h).1 = [(h, t, e)] := by
  have h1 : listeners (subscribe conf)
      = conf.Data.Events.flatMap (fun p => p.2.map (fun h => (p.1, h))) := by
    simp [subscribe, wait, listeners_append, listeners_eventsLoop, listeners]
  refine ⟨h1, ?_, ?_⟩
  · rw [h1]
    generalize conf.Data.Events = evs
    induction evs with
    | nil => rfl
    | cons p ps ih => simp [List.flatMap_cons, ih]
  · intro t h e ce
    cases h with
    | none => rfl
    | some v =>
      simp [runListener, runListener.loop, HandlerPtr.Run, handlerCalls_append,
        handlerCalls_run, handlerCalls]

/-- C5 (the code departs from it): when no candidate file can be read, `readFirst`
returns a nil error with empty data and an empty path, and `main` goes on to decode the
empty data and to call `subscribe` with the resulting configuration, ending normally. -/
theorem main_continues_without_config_file :
    readFirst envNoConfigFile.readFile
        ["i3watch.yml", "i3watch.yaml", "/home/u/.config/i3watch/config.yml"]
        = ([], "", none) ∧
    main envNoConfigFile
        = (Effect.stdout "i3: 4.20\n" :: subscribe (Config.mk "" (ConfigData.mk [])),
            Termination.returns) ∧
    main envNoConfigFile
        = ([.stdout "i3: 4.20\n", .logLine "---\n", .waitSignal], Termination.returns) := by
  refine ⟨?_, ?_, ?_⟩ <;> decide

/-- C6 (the code departs from it): for the fragment `cmd: [a, b]`, decoding into a
`CommandRunner` fails, and `UnmarshalYAML` returns a nil error with an empty handler;
with a `dir` key visited afterwards it returns a nil error with a `DirectoryRunner`. -/
theorem unmarshalYAML_drops_decoding_error :
    umCmdSeq.intoCommandRunner = .error "cannot unmarshal !!seq into string" ∧
    Handler.UnmarshalYAML exampleStat newHandler umCmdSeq
        = .returned (Handler.mk none, none) ∧
    Handler.UnmarshalYAML exampleStat newHandler umCmdSeqThenDir
        = .returned (Handler.mk (some (.directory (DirectoryRunner.mk "/tmp"))), none) := by
  refine ⟨?_, ?_, ?_⟩ <;> rfl

/-- C7: when `os.Stat` of the configured path succeeds, `DirectoryRunner.Check` returns
the error `not a directory: <path>` if the result is not a directory and nil if it is. -/
theorem directoryRunner_check_of_stat_ok (stat : GoString → StatResult)
    (r : DirectoryRunner) (fi : FileInfo) (hs : stat r.Path = (some fi, none)) :
    r.Check stat
      = .returned (if fi.isDir then none else some ("not a directory: " ++ r.Path)) := by
  cases hfi : fi.isDir <;> simp [DirectoryRunner.Check, hs, IsDir, Outcome.bind, hfi]

/-- Instances of C7 on the example file system: the regular file `/etc/passwd` and
the directory `/tmp`. -/
theorem directoryRunner_check_of_stat_ok_witness :
    (exampleStat (DirectoryRunner.mk "/etc/passwd").Path = (some (FileInfo.mk false), none) ∧
      (DirectoryRunner.mk "/etc/passwd").Check exampleStat
        = .returned (if (FileInfo.mk false).isDir then none
            else some ("not a directory: " ++ (DirectoryRunner.mk "/etc/passwd").Path))) ∧
    (exampleStat (DirectoryRunner.mk "/tmp").Path = (some (FileInfo.mk true), none) ∧
      (DirectoryRunner.mk "/tmp").Check exampleStat
        = .returned (if (FileInfo.mk true).isDir then none
            else some ("not a directory: " ++ (DirectoryRunner.mk "/tmp").Path))) :=
  ⟨⟨by decide, directoryRunner_check_of_stat_ok exampleStat _ _ (by decide)⟩,
    ⟨by decide, directoryRunner_check_of_stat_ok exampleStat _ _ (by decide)⟩⟩

/-- C8: for a fragment that decodes as a mapping with neither a `cmd` nor a `dir` key,
`UnmarshalYAML` on a fresh handler returns a nil error and leaves the handler empty, and
`Run` on that handler returns nil with no effect at all: no runner call, no log record. -/
theorem unmarshalYAML_no_recognized_key (stat : GoString → StatResult) (um : Unmarshaler)
    (keys : List GoString) (hm : um.intoMap = .ok keys)
    (hc : "cmd" ∉ keys) (hd : "dir" ∉ keys) :
    ∃ h : Handler, Handler.UnmarshalYAML stat newHandler um = .returned (h, none) ∧
      h.IsZero = true ∧
      ∀ (t : EventType) (e : Event), h.Run t e = ([], none) ∧
        runnerCalls (h.Run t e).1 = [] ∧ logRecords (h.Run t e).1 = [] := by
  refine ⟨newHandler, ?_, rfl, fun t e => ⟨rfl, rfl, rfl⟩⟩
  simp [Handler.UnmarshalYAML, hm, loop_unrecognized um keys _ hc hd]

/-- Instance of C8 for the fragment `note: x, level: 3`. -/
theorem unmarshalYAML_no_recognized_key_witness :
    umOther.intoMap = .ok ["note", "level"] ∧ "cmd" ∉ ["note", "level"] ∧
    "dir" ∉ ["note", "level"] ∧
    ∃ h : Handler, Handler.UnmarshalYAML exampleStat newHandler umOther = .returned (h, none) ∧
      h.IsZero = true ∧
      ∀ (t : EventType) (e : Event), h.Run t e = ([], none) ∧
        runnerCalls (h.Run t e).1 = [] ∧ logRecords (h.Run t e).1 = [] :=
  ⟨rfl, by decide, by decide,
    unmarshalYAML_no_recognized_key exampleStat umOther ["note", "level"] rfl
      (by decide) (by decide)⟩

/-- C10: for every command string `c`, decoding a fragment that has the key `cmd` with
value `c` and no key `dir` returns a nil error and a handler wrapping a `CommandRunner`
with command `c`; for an event of type `t` its `Run` calls that runner once, writes the
single log record `t: run command: c` and returns nil. -/
theorem unmarshalYAML_cmd_only (stat : GoString → StatResult) (um : Unmarshaler)
    (keys : List GoString) (c : GoString) (hm : um.intoMap = .ok keys)
    (hk : "cmd" ∈ keys) (hd : "dir" ∉ keys)
    (hr : um.intoCommandRunner = .ok (CommandRunner.mk c)) :
    Handler.UnmarshalYAML stat newHandler um
        = .returned (Handler.mk (some (.command (CommandRunner.mk c))), none) ∧
    ∀ (t : EventType) (e : Event),
      (Handler.mk (some (.command (CommandRunner.mk c)))).Run t e
          = ([.runnerRun (.command (CommandRunner.mk c)) t e,
              .logLine (t ++ ": run command: " ++ c ++ "\n")], none) ∧
      logRecords ((Handler.mk (some (.command (CommandRunner.mk c)))).Run t e).1
          = [t ++ ": run command: " ++ c ++ "\n"] := by
  constructor
  · simp [Handler.UnmarshalYAML, hm, loop_cmd_only um _ keys _ hr hk hd]
  · intro t e
    simp [Handler.Run, Runner.Run, CommandRunner.Run, logOutput_newline, logRecords]

/-- Instance of C10 for `c = notify-send hi` and `t = window`. -/
theorem unmarshalYAML_cmd_only_witness :
    (umCmd "notify-send hi").intoMap = .ok ["cmd"] ∧ "cmd" ∈ ["cmd"] ∧ "dir" ∉ ["cmd"] ∧
    (umCmd "notify-send hi").intoCommandRunner = .ok (CommandRunner.mk "notify-send hi") ∧
    Handler.UnmarshalYAML exampleStat newHandler (umCmd "notify-send hi")
        = .returned (Handler.mk (some (.command (CommandRunner.mk "notify-send hi"))), none) ∧
    logRecords ((Handler.mk (some (.command (CommandRunner.mk "notify-send hi")))).Run
        "window" "ev").1 = ["window: run command: notify-send hi\n"] :=
  ⟨rfl, by decide, by decide, rfl,
    (unmarshalYAML_cmd_only exampleStat (umCmd "notify-send hi") ["cmd"] "notify-send hi" rfl
      (by decide) (by decide) rfl).1,
    ((unmarshalYAML_cmd_only exampleStat (umCmd "notify-send hi") ["cmd"] "notify-send hi" rfl
      (by decide) (by decide) rfl).2 "window" "ev").2⟩

end I3Watch
